import Mathlib

/-!
Verification of the motor-chata car-recall dashboard (shallow embedding).

The repository has three variants of the same pipeline:
  * `src/YoonhaJeon/app_2.py`      — CSV upload, pandas in-memory (namespace `App2`);
  * `src/YoonhaJeon/recall_repo.py` — MySQL repository layer (namespace `RecallRepo`);
  * `src/YoonhaJeon/app_connect.py` — SQLite/ERD variant (namespace `AppConnect`);
  * `src/KimMinHa/app.py`           — placeholder-data variant (namespace `KimMinHa`).

Dates are ISO strings "YYYY-MM-DD" in the sources; string comparison on
zero-padded ISO dates coincides with the numeric order of y*10000+m*100+d,
which is how `SimpleDate.code` models the comparisons.  Tables are lists of
records; SQL queries are embedded at the level of the joined relation (the
spec places the joins themselves out of scope, as plain foreign-key lookups
delegated to the engine).  A SQL/pandas sort with ties is order-unspecified;
the embedding fixes the stable insertion sort, and every argument about order
below is tie-free.
-/

/-- A calendar date; comparisons in the sources are lexicographic on the
zero-padded ISO string, i.e. numeric on `code`. -/
structure SimpleDate where
  y : Nat
  m : Nat
  d : Nat
deriving DecidableEq

def SimpleDate.code (a : SimpleDate) : Nat := a.y * 10000 + a.m * 100 + a.d

/-- Boolean date comparison, as the sources compare ISO strings / SQL DATEs. -/
def dleb (a b : SimpleDate) : Bool := decide (a.code ≤ b.code)

/-- Whitespace test used to model Python `str.strip()` (ASCII whitespace). -/
def isSpaceB (c : Char) : Bool := c == ' ' || c == '\t' || c == '\n' || c == '\r'

/-- Model of Python `str.strip()` on the character list. -/
def stripChars (l : List Char) : List Char :=
  ((l.dropWhile isSpaceB).reverse.dropWhile isSpaceB).reverse

/-- Model of Python `str.strip()` on strings. -/
def stripStr (s : String) : String := String.mk (stripChars s.data)

/-- Decimal value of a digit list, as Python `int(digits)`. -/
def natFromDigits (l : List Char) : Nat :=
  l.foldl (fun n c => n * 10 + (c.toNat - '0'.toNat)) 0

/-- Split a character list at every occurrence of `sep`
(Python `str.split(sep)` semantics for a one-character separator). -/
def splitChar (sep : Char) : List Char → List (List Char)
  | [] => [[]]
  | c :: rest =>
    let r := splitChar sep rest
    if c == sep then [] :: r
    else
      match r with
      | [] => [[c]]
      | h :: t => (c :: h) :: t

/-- Split at the first `~`, `none` when no `~` occurs
(Python `"~" in s` check followed by `s.split("~", 1)`). -/
def splitTilde : List Char → Option (List Char × List Char)
  | [] => none
  | c :: rest =>
    if c == '~' then some ([], rest)
    else
      match splitTilde rest with
      | none => none
      | some (l, r) => some (c :: l, r)

def allDigits (l : List Char) : Bool := l.all Char.isDigit

/-- Gregorian leap-year rule, as Python `datetime` uses. -/
def isLeap (y : Nat) : Bool := y % 4 == 0 && (y % 100 != 0 || y % 400 == 0)

def daysInMonth (y m : Nat) : Nat :=
  if m == 2 then (if isLeap y then 29 else 28)
  else if m == 4 || m == 6 || m == 9 || m == 11 then 30
  else 31

/-- Model of `datetime.strptime(s, "%Y-%m-%d")`: three dash-separated numeric
fields (year up to 4 digits, month/day up to 2), nothing left over, and a
calendar-valid date; `none` models the `ValueError` path. -/
def parseYMD (l : List Char) : Option SimpleDate :=
  match splitChar '-' l with
  | [ys, ms, ds] =>
    if ys ≠ [] ∧ ys.length ≤ 4 ∧ allDigits ys = true ∧
       ms ≠ [] ∧ ms.length ≤ 2 ∧ allDigits ms = true ∧
       ds ≠ [] ∧ ds.length ≤ 2 ∧ allDigits ds = true then
      let y := natFromDigits ys
      let m := natFromDigits ms
      let d := natFromDigits ds
      if 1 ≤ y ∧ 1 ≤ m ∧ m ≤ 12 ∧ 1 ≤ d ∧ d ≤ daysInMonth y m then
        some ⟨y, m, d⟩
      else none
    else none
  | _ => none

/-- `[lo..hi]` inclusive, as Python `range(lo, hi + 1)`. -/
def yearRange (lo hi : Nat) : List Nat :=
  (List.range (hi + 1 - lo)).map (lo + ·)

namespace App2

/-- `parse_units_to_int` from `app_2.py`: `None` yields 0, otherwise strip,
keep only the digit characters, 0 when no digit remains. -/
def parse_units_to_int (s : Option String) : Nat :=
  match s with
  | none => 0
  | some s0 =>
    let t := stripStr s0
    if t = "" then 0
    else
      let digits := t.data.filter Char.isDigit
      if digits = [] then 0 else natFromDigits digits

/-- `parse_period_to_dates` from `app_2.py`: strip, require a `~`, split at
the first `~`, strip and `strptime` each side; any failure — including a
failure on only one side — yields `(None, None)`. -/
def parse_period_to_dates (p : Option String) :
    Option SimpleDate × Option SimpleDate :=
  match p with
  | none => (none, none)
  | some raw =>
    match splitTilde (stripChars raw.data) with
    | none => (none, none)
    | some (l, r) =>
      match parseYMD (stripChars l), parseYMD (stripChars r) with
      | some a, some b => (some a, some b)
      | _, _ => (none, none)

/-- One raw CSV row: cells addressed by column name; `none` models NaN. -/
def RawRow := List (String × Option String)

/-- A raw pandas DataFrame: its column list and its rows. -/
structure RawTable where
  cols : List String
  rows : List RawRow

def getCell (r : RawRow) (c : String) : Option String :=
  match List.find? (fun kv => kv.1 == c) r with
  | some kv => kv.2
  | none => none

/-- `df[c].astype(str)` for one cell; a missing value stringifies to "nan". -/
def getStr (r : RawRow) (c : String) : String := (getCell r c).getD "nan"

/-- A normalized row of the `preprocess_csv` output. -/
structure Row2 where
  scope : String
  maker : String
  car_name : String
  start_date : SimpleDate
  end_date : SimpleDate
  target_units : Nat
  defect_text : String
  fix_text : String
  contact_text : String
deriving DecidableEq

/-- Intermediate row before the `dropna` step: dates still optional. -/
structure IRow where
  scope : String
  maker : String
  car_name : String
  sdt : Option SimpleDate
  edt : Option SimpleDate
  target_units : Nat
  defect_text : String
  fix_text : String
  contact_text : String
deriving DecidableEq

def required_cols : List String :=
  ["구분", "제작사", "차명", "생산기간", "대상수량", "결함내용", "시정방법", "기타문의"]

def missingOf (t : RawTable) : List String :=
  required_cols.filter (fun c => !(t.cols.contains c))

/-- The per-row column assembly of `preprocess_csv` (before `dropna`). -/
def toIRow (r : RawRow) : IRow :=
  { scope := getStr r "구분"
    maker := getStr r "제작사"
    car_name := getStr r "차명"
    sdt := (parse_period_to_dates (getCell r "생산기간")).1
    edt := (parse_period_to_dates (getCell r "생산기간")).2
    target_units := parse_units_to_int (getCell r "대상수량")
    defect_text := getStr r "결함내용"
    fix_text := getStr r "시정방법"
    contact_text := getStr r "기타문의" }

/-- Extraction of the dates after `dropna` guarantees both are present; the
defaults are never reached on a row that survives the filter. -/
def finalize (ir : IRow) : Row2 :=
  { scope := ir.scope
    maker := ir.maker
    car_name := ir.car_name
    start_date := ir.sdt.getD ⟨0, 0, 0⟩
    end_date := ir.edt.getD ⟨0, 0, 0⟩
    target_units := ir.target_units
    defect_text := ir.defect_text
    fix_text := ir.fix_text
    contact_text := ir.contact_text }

/-- Direct builder for a normalized row from a raw row and its parsed period
(used to state what `preprocess_csv` keeps). -/
def mkRow2 (r : RawRow) (a b : SimpleDate) : Row2 :=
  { scope := getStr r "구분"
    maker := getStr r "제작사"
    car_name := getStr r "차명"
    start_date := a
    end_date := b
    target_units := parse_units_to_int (getCell r "대상수량")
    defect_text := getStr r "결함내용"
    fix_text := getStr r "시정방법"
    contact_text := getStr r "기타문의" }

/-- `preprocess_csv` from `app_2.py`: check the eight required columns
(raising `ValueError` naming the full missing list, modelled as `.error`),
assemble the normalized columns, and drop rows whose `start_date` or
`end_date` is missing.  The `ValueError` message is modelled by the list of
missing columns it embeds. -/
def preprocess_csv (t : RawTable) : Except (List String) (List Row2) :=
  if missingOf t = [] then
    .ok (((t.rows.map toIRow).filter
            (fun ir => ir.sdt.isSome && ir.edt.isSome)).map finalize)
  else .error (missingOf t)

/-- `filter_by_manufacture_year` from `app_2.py`: keep a record when its
manufacture period overlaps the target calendar year. -/
def filter_by_manufacture_year (df : List Row2) (y : Nat) : List Row2 :=
  df.filter (fun r => dleb r.start_date ⟨y, 12, 31⟩ && dleb ⟨y, 1, 1⟩ r.end_date)

/-- `kpi_total_recall_count` from `app_2.py`. -/
def kpi_total_recall_count (df : List Row2) (y : Nat) : Nat :=
  (filter_by_manufacture_year df y).length

/-- `kpi_total_units` from `app_2.py`. -/
def kpi_total_units (df : List Row2) (y : Nat) : Nat :=
  ((filter_by_manufacture_year df y).map Row2.target_units).sum

/-- `year_trend` from `app_2.py`: one `(year, count)` row per supplied year. -/
def year_trend (df : List Row2) (years : List Nat) : List (Nat × Nat) :=
  years.map (fun y => (y, (filter_by_manufacture_year df y).length))

/-- The descending manufacture-end-date order of
`sort_values("end_date", ascending=False)` (`app_2.py`, list tab). -/
def end2Desc (a b : Row2) : Prop := b.end_date.code ≤ a.end_date.code

instance : DecidableRel end2Desc := fun a b => Nat.decLe b.end_date.code a.end_date.code

instance : IsTotal Row2 end2Desc := ⟨fun a b => Nat.le_total b.end_date.code a.end_date.code⟩

instance : IsTrans Row2 end2Desc := ⟨fun _ _ _ h1 h2 => Nat.le_trans h2 h1⟩

/-- The list-tab display pipeline tail of `app_2.py` line 216:
`df.sort_values("end_date", ascending=False).head(500)`. -/
def tab_list_cap (df : List Row2) : List Row2 :=
  (List.insertionSort end2Desc df).take 500

end App2

/-- ASCII-lowercase a character list, modelling Python `str.lower()` /
pandas `.str.lower()` on the fields the dashboards search. -/
def lowerChars (l : List Char) : List Char := l.map Char.toLower

/-- Substring test (`needle` occurs inside `hay`), modelling Python `in` and
pandas `.str.contains` on a pattern without regex metacharacters. -/
def containsSub (hay needle : List Char) : Bool :=
  match hay with
  | [] => needle.isEmpty
  | _ :: rest => List.isPrefixOf needle hay || containsSub rest needle

namespace KimMinHa

/-- One placeholder-schema record from `src/KimMinHa/app.py`
(`manufacturer, model, recall_date, severity, status, affected_units, reason`). -/
structure KRow where
  manufacturer : String
  model : String
  recall_date : Option SimpleDate
  severity : String
  status : String
  affected_units : Nat
  reason : String
deriving DecidableEq

/-- The free-text mask of `apply_filters`: case-insensitive substring match
against manufacturer, model and reason. -/
def textMatch (q : String) (r : KRow) : Bool :=
  containsSub (lowerChars r.manufacturer.data) (lowerChars q.data) ||
  containsSub (lowerChars r.model.data) (lowerChars q.data) ||
  containsSub (lowerChars r.reason.data) (lowerChars q.data)

/-- `apply_filters` from `src/KimMinHa/app.py`: early return on an empty
table, then the free-text filter when `q` is non-empty, the manufacturer
equality filter unless the sentinel "전체", and the severity equality filter
unless "전체". -/
def apply_filters (df : List KRow) (q mfg severity : String) : List KRow :=
  if df.isEmpty then df
  else
    let out1 := if q = "" then df else df.filter (textMatch q)
    let out2 := if mfg = "전체" then out1 else out1.filter (fun r => r.manufacturer == mfg)
    if severity = "전체" then out2 else out2.filter (fun r => r.severity == severity)

/-- The one-predicate-per-row form of `apply_filters` (each criterion is
trivially true at its sentinel), used to state and prove composability. -/
def critB (q mfg severity : String) (r : KRow) : Bool :=
  (q == "" || textMatch q r) &&
  (mfg == "전체" || r.manufacturer == mfg) &&
  (severity == "전체" || r.severity == severity)

/-- Merge two values of one criterion slot: keep `a` unless it is the
sentinel `dflt`, in which case take `b`. -/
def combS (dflt a b : String) : String := if a = dflt then b else a

end KimMinHa

namespace AppConnect

/-- One row of the joined relation behind `app_connect.py`
(`tbl_recall ⋈ tbl_device ⋈ tbl_model ⋈ tbl_manufacturer ⋈ tbl_region`);
the manufacture period sits on the manufacturer per that variant's ERD.
`recall_date` is optional: `pd.to_datetime(..., errors="coerce")` maps an
unparseable value to NaT, modelled as `none`. -/
structure CRow where
  recall_id : Nat
  region_type : String
  maker_name : String
  model_name : String
  device_type : String
  recall_title : String
  recall_type : String
  defect_desc : String
  fix_method : String
  recall_center : String
  recall_quantity : Nat
  recall_date : Option SimpleDate
  manufacture_start_date : SimpleDate
  manufacture_end_date : SimpleDate
deriving DecidableEq

/-- The derived `recall_year` column of `base_filtered_view`
(`pd.to_datetime(df["recall_date"], errors="coerce").dt.year`). -/
def recall_year (r : CRow) : Option Nat := r.recall_date.map SimpleDate.y

/-- The WHERE clause assembled by `query_recalls`: region and maker equality
unless the sentinel "전체", manufacture-period/year overlap when a year is
given, and a keyword LIKE over maker and model names (SQLite LIKE is
ASCII-case-insensitive, hence the lowering). -/
def whereC (region maker : String) (year : Option Nat) (kw : String) (r : CRow) : Bool :=
  (region == "전체" || r.region_type == region) &&
  (maker == "전체" || r.maker_name == maker) &&
  (match year with
   | none => true
   | some y =>
     dleb r.manufacture_start_date ⟨y, 12, 31⟩ && dleb ⟨y, 1, 1⟩ r.manufacture_end_date) &&
  (let s := stripStr kw
   s == "" ||
     (containsSub (lowerChars r.maker_name.data) (lowerChars s.data) ||
      containsSub (lowerChars r.model_name.data) (lowerChars s.data)))

/-- Sort key of `ORDER BY DATE(rc.recall_date) DESC`: a NULL date sorts after
every real date in descending order, so it maps below every real code. -/
def cKey (r : CRow) : Nat :=
  match r.recall_date with
  | none => 0
  | some d => d.code + 1

/-- The `ORDER BY DATE(rc.recall_date) DESC, rc.recall_id DESC` order of
`query_recalls`. -/
def cDesc (a b : CRow) : Prop :=
  cKey b < cKey a ∨ (cKey a = cKey b ∧ b.recall_id ≤ a.recall_id)

instance : DecidableRel cDesc := fun a b =>
  inferInstanceAs (Decidable (cKey b < cKey a ∨ (cKey a = cKey b ∧ b.recall_id ≤ a.recall_id)))

instance : IsTotal CRow cDesc := by
  constructor
  intro a b
  unfold cDesc
  omega

instance : IsTrans CRow cDesc := by
  constructor
  intro a b c h1 h2
  unfold cDesc at h1 h2 ⊢
  omega

/-- `query_recalls` from `app_connect.py`, over the joined relation: apply
the WHERE conjunction, order by recall date (then id) descending, cap at
`limit`. -/
def query_recalls (rows : List CRow) (region maker : String) (year : Option Nat)
    (kw : String) (limit : Nat) : List CRow :=
  (List.insertionSort cDesc (rows.filter (whereC region maker year kw))).take limit

/-- `stats_kpi` from `app_connect.py`: restrict to rows whose `recall_year`
equals the base year, return (row count, `recall_quantity` sum) with the
source's explicit empty-set guard on the sum. -/
def stats_kpi (df : List CRow) (y : Nat) : Nat × Nat :=
  let base_year := df.filter (fun r => recall_year r == some y)
  (base_year.length,
   if base_year.isEmpty then 0 else (base_year.map CRow.recall_quantity).sum)

/-- `stats_year_trend` from `app_connect.py`: one `(year, count)` pair per
supplied year, counting rows whose `recall_year` equals that year (with the
source's guard returning 0 on an empty table). -/
def stats_year_trend (df : List CRow) (years : List Nat) : List (Nat × Nat) :=
  years.map (fun y =>
    (y, if df.isEmpty then 0 else (df.filter (fun r => recall_year r == some y)).length))

/-- Modelled from the spec: the count rule the year-trend claim states — the
number of records whose manufacture period overlaps the target calendar year
("include a record if its manufacture period intersects [Jan 1 Y, Dec 31 Y]").
Stated for the joined rows of this variant so it can be compared with
`stats_year_trend`, whose own counting rule in the source is recall-year
equality. -/
def overlapCount (df : List CRow) (y : Nat) : Nat :=
  (df.filter (fun r =>
    dleb r.manufacture_start_date ⟨y, 12, 31⟩ && dleb ⟨y, 1, 1⟩ r.manufacture_end_date)).length

end AppConnect

namespace RecallRepo

/-- One row of the joined relation behind `recall_repo.py`
(`tbl_recall ⋈ tbl_model ⋈ tbl_manufacturer`); the manufacture period sits on
the model in that variant's schema.  `recall_date` is modelled from the spec:
the MySQL schema itself is not under `src/`, the spec's input schema lists a
recall table with a recall date (and the SQLite sibling `app_connect.py`
carries `rc.recall_date`), but none of `recall_repo.py`'s queries reads it. -/
structure MRow where
  region_at : String
  maker_name : String
  model_name : String
  start_date : SimpleDate
  end_date : SimpleDate
  recall_quantity : Nat
  defect_desc : String
  fix_method : String
  recall_center : String
  recall_date : SimpleDate
deriving DecidableEq

/-- `_build_where` from `recall_repo.py`, as a row predicate: scope and maker
equality unless the sentinel "전체", manufacture-year overlap when a year is
given, and a keyword LIKE over maker and model names (MySQL LIKE under the
default collation is case-insensitive, hence the lowering). -/
def buildWhere (scope maker : String) (manufacture_year : Option Nat)
    (search_text : String) (r : MRow) : Bool :=
  (scope == "전체" || r.region_at == scope) &&
  (maker == "전체" || r.maker_name == maker) &&
  (match manufacture_year with
   | none => true
   | some y => dleb r.start_date ⟨y, 12, 31⟩ && dleb ⟨y, 1, 1⟩ r.end_date) &&
  (let s := stripStr search_text
   s == "" ||
     (containsSub (lowerChars r.maker_name.data) (lowerChars s.data) ||
      containsSub (lowerChars r.model_name.data) (lowerChars s.data)))

/-- The `ORDER BY md.end_date DESC` order of `fetch_recalls`. -/
def mDesc (a b : MRow) : Prop := b.end_date.code ≤ a.end_date.code

instance : DecidableRel mDesc := fun a b => Nat.decLe b.end_date.code a.end_date.code

instance : IsTotal MRow mDesc := ⟨fun a b => Nat.le_total b.end_date.code a.end_date.code⟩

instance : IsTrans MRow mDesc := ⟨fun _ _ _ h1 h2 => Nat.le_trans h2 h1⟩

/-- Modelled from the spec: the ordering the cap claim states — "applied
after sorting by recall date descending" — for comparison with the order
`fetch_recalls` actually uses. -/
def mRecallDesc (a b : MRow) : Prop := b.recall_date.code ≤ a.recall_date.code

instance : DecidableRel mRecallDesc := fun a b => Nat.decLe b.recall_date.code a.recall_date.code

/-- `fetch_recalls` from `recall_repo.py`, over the joined relation: apply
the WHERE conjunction, order by manufacture `end_date` descending, cap at
`limit`. -/
def fetch_recalls (rows : List MRow) (scope maker : String)
    (manufacture_year : Option Nat) (search_text : String) (limit : Nat) : List MRow :=
  (List.insertionSort mDesc
    (rows.filter (buildWhere scope maker manufacture_year search_text))).take limit

/-- `fetch_kpi` from `recall_repo.py`: `COUNT(*)` and
`SUM(recall_quantity)` over the WHERE-filtered joined relation (year filter
active, empty search). -/
def fetch_kpi (rows : List MRow) (scope maker : String) (year : Nat) : Nat × Nat :=
  let f := rows.filter (buildWhere scope maker (some year) "")
  (f.length, (f.map MRow.recall_quantity).sum)

/-- `fetch_year_trend` from `recall_repo.py`: one `fetch_kpi` call per year
of `range(min_year, max_year + 1)`, collecting `(year, count)`. -/
def fetch_year_trend (rows : List MRow) (scope maker : String) (lo hi : Nat) :
    List (Nat × Nat) :=
  (yearRange lo hi).map (fun y => (y, (fetch_kpi rows scope maker y).1))

end RecallRepo

/-! ### Concrete inputs used by the witnesses and counterexamples -/

/-- A record manufactured 2018-06-01 .. 2020-03-01, the example of the
year-overlap claim. -/
def ex2Rec : App2.Row2 :=
  ⟨"국내", "현대", "아반떼", ⟨2018, 6, 1⟩, ⟨2020, 3, 1⟩, 100, "결함", "수리", "문의"⟩

/-- A joined ERD row whose manufacture period spans 2018..2020 but whose
recall date falls in 2019. -/
def exCRow : AppConnect.CRow :=
  ⟨1, "국내", "현대", "아반떼", "엔진", "리콜", "무상수리", "결함", "수리", "센터",
   10, some ⟨2019, 5, 10⟩, ⟨2018, 6, 1⟩, ⟨2020, 3, 1⟩⟩

/-- Joined MySQL row: latest manufacture end date, earliest recall date. -/
def exMRowA : RecallRepo.MRow :=
  ⟨"국내", "현대", "아반떼", ⟨2018, 1, 1⟩, ⟨2020, 12, 31⟩, 5, "결함", "수리", "센터", ⟨2019, 1, 1⟩⟩

/-- Joined MySQL row: earlier manufacture end date, later recall date. -/
def exMRowB : RecallRepo.MRow :=
  ⟨"국내", "기아", "쏘렌토", ⟨2017, 1, 1⟩, ⟨2019, 12, 31⟩, 7, "결함", "수리", "센터", ⟨2021, 1, 1⟩⟩

/-- A raw CSV row whose production period is written right-to-left
(start 2021, end 2019); every side parses, so nothing drops it. -/
def badRawRow3 : App2.RawRow :=
  [("구분", some "국내"), ("제작사", some "현대"), ("차명", some "아반떼"),
   ("생산기간", some "2021-01-01 ~ 2019-01-01"), ("대상수량", some "1,234대"),
   ("결함내용", some "결함"), ("시정방법", some "수리"), ("기타문의", some "문의")]

def badT3 : App2.RawTable := ⟨App2.required_cols, [badRawRow3]⟩

/-- The normalized row `preprocess_csv` produces from `badRawRow3`. -/
def badOut3 : App2.Row2 :=
  ⟨"국내", "현대", "아반떼", ⟨2021, 1, 1⟩, ⟨2019, 1, 1⟩, 1234, "결함", "수리", "문의"⟩

/-- A raw CSV row with a well-ordered production period. -/
def goodRawRow3 : App2.RawRow :=
  [("구분", some "국내"), ("제작사", some "현대"), ("차명", some "아반떼"),
   ("생산기간", some "2019-01-01 ~ 2021-01-01"), ("대상수량", some "1,234대"),
   ("결함내용", some "결함"), ("시정방법", some "수리"), ("기타문의", some "문의")]

def goodT3 : App2.RawTable := ⟨App2.required_cols, [goodRawRow3]⟩

/-- The normalized row `preprocess_csv` produces from `goodRawRow3`. -/
def goodOut3 : App2.Row2 :=
  ⟨"국내", "현대", "아반떼", ⟨2019, 1, 1⟩, ⟨2021, 1, 1⟩, 1234, "결함", "수리", "문의"⟩

/-- A raw table missing six of the eight required columns. -/
def badT9 : App2.RawTable := ⟨["제작사", "차명"], []⟩

/-- A raw table with every required column (and no rows). -/
def goodT9 : App2.RawTable := ⟨App2.required_cols, []⟩

def exK1 : KimMinHa.KRow :=
  ⟨"BMW", "i3", some ⟨2024, 1, 5⟩, "위험", "진행중", 100, "배터리 결함"⟩

def exK2 : KimMinHa.KRow :=
  ⟨"Hyundai", "Avante", some ⟨2024, 2, 5⟩, "경고", "완료", 50, "시트 결함"⟩

def exK3 : KimMinHa.KRow :=
  ⟨"BMW", "i5", none, "주의", "완료", 20, "기타"⟩

def exKdf : List KimMinHa.KRow := [exK1, exK2, exK3]

/-- Three raw rows, the middle one with an unparseable production period. -/
def mixRows8 : List App2.RawRow :=
  [[("구분", some "국내"), ("제작사", some "현대"), ("차명", some "아반떼"),
    ("생산기간", some "2018-01-01 ~ 2018-12-31"), ("대상수량", some "10대"),
    ("결함내용", some "a"), ("시정방법", some "b"), ("기타문의", some "c")],
   [("구분", some "국내"), ("제작사", some "기아"), ("차명", some "쏘렌토"),
    ("생산기간", some "언제나"), ("대상수량", some "20대"),
    ("결함내용", some "a"), ("시정방법", some "b"), ("기타문의", some "c")],
   [("구분", some "해외"), ("제작사", some "BMW"), ("차명", some "i5"),
    ("생산기간", some "2020-01-01 ~ 2021-06-30"), ("대상수량", some "30대"),
    ("결함내용", some "a"), ("시정방법", some "b"), ("기타문의", some "c")]]

def mixT8 : App2.RawTable := ⟨App2.required_cols, mixRows8⟩

/-- The two normalized rows surviving from `mixT8`. -/
def out8 : List App2.Row2 :=
  [⟨"국내", "현대", "아반떼", ⟨2018, 1, 1⟩, ⟨2018, 12, 31⟩, 10, "a", "b", "c"⟩,
   ⟨"해외", "BMW", "i5", ⟨2020, 1, 1⟩, ⟨2021, 6, 30⟩, 30, "a", "b", "c"⟩]

/-! ### Helper lemmas -/

theorem dropWhile_filter_eq (p q : Char → Bool) (h : ∀ c, q c = true → p c = false)
    (l : List Char) : (l.dropWhile q).filter p = l.filter p := by
  induction l with
  | nil => rfl
  | cons c t ih =>
    by_cases hq : q c = true
    · have hp := h c hq
      simp [List.dropWhile_cons, hq, List.filter_cons, hp, ih]
    · simp [List.dropWhile_cons, hq]

theorem stripChars_filter_eq (p : Char → Bool)
    (h : ∀ c, isSpaceB c = true → p c = false) (l : List Char) :
    (stripChars l).filter p = l.filter p := by
  unfold stripChars
  rw [List.filter_reverse, dropWhile_filter_eq p isSpaceB h,
    List.filter_reverse, List.reverse_reverse, dropWhile_filter_eq p isSpaceB h]

theorem isSpaceB_not_digit (c : Char) (h : isSpaceB c = true) : c.isDigit = false := by
  simp only [isSpaceB, Bool.or_eq_true, beq_iff_eq] at h
  rcases h with ((h | h) | h) | h <;> subst h <;> decide

theorem parse_period_both_or_none (p : Option String) :
    App2.parse_period_to_dates p = (none, none) ∨
      ∃ a b, App2.parse_period_to_dates p = (some a, some b) := by
  cases p with
  | none => exact Or.inl rfl
  | some raw =>
    have hred : App2.parse_period_to_dates (some raw)
        = match splitTilde (stripChars raw.data) with
          | none => (none, none)
          | some (l, r) =>
            match parseYMD (stripChars l), parseYMD (stripChars r) with
            | some a, some b => (some a, some b)
            | _, _ => (none, none) := rfl
    rw [hred]
    cases splitTilde (stripChars raw.data) with
    | none => exact Or.inl rfl
    | some lr =>
      obtain ⟨l, r⟩ := lr
      have hred2 : (match (some (l, r) : Option (List Char × List Char)) with
            | none => ((none, none) : Option SimpleDate × Option SimpleDate)
            | some (l, r) =>
              match parseYMD (stripChars l), parseYMD (stripChars r) with
              | some a, some b => (some a, some b)
              | _, _ => (none, none))
          = (match parseYMD (stripChars l), parseYMD (stripChars r) with
             | some a, some b => ((some a, some b) : Option SimpleDate × Option SimpleDate)
             | _, _ => (none, none)) := rfl
      rw [hred2]
      cases hx : parseYMD (stripChars l) with
      | none => cases hy : parseYMD (stripChars r) <;> exact Or.inl rfl
      | some a =>
        cases hy : parseYMD (stripChars r) with
        | none => exact Or.inl rfl
        | some b => exact Or.inr ⟨a, b, rfl⟩

theorem preprocess_rows_char (rows : List App2.RawRow) :
    ((rows.map App2.toIRow).filter
        (fun ir => ir.sdt.isSome && ir.edt.isSome)).map App2.finalize
      = rows.filterMap (fun r =>
          match App2.parse_period_to_dates (App2.getCell r "생산기간") with
          | (some a, some b) => some (App2.mkRow2 r a b)
          | _ => none) := by
  induction rows with
  | nil => rfl
  | cons r t ih =>
    rcases parse_period_both_or_none (App2.getCell r "생산기간") with h | ⟨a, b, h⟩
    · simp [List.filter_cons, List.filterMap_cons, App2.toIRow, h, ih]
    · simp [List.filter_cons, List.filterMap_cons, App2.toIRow, h, ih,
        App2.finalize, App2.mkRow2]

theorem filter_if_sentinel {α : Type} (c d : String) (p : α → Bool) (l : List α) :
    (if c = d then l else l.filter p) = l.filter (fun r => (c == d) || p r) := by
  by_cases h : c = d
  · subst h; simp
  · have hb : (c == d) = false := beq_eq_false_iff_ne.mpr h
    simp [h, hb]

theorem apply_filters_eq_filter (df : List KimMinHa.KRow) (q m s : String) :
    KimMinHa.apply_filters df q m s = df.filter (KimMinHa.critB q m s) := by
  simp only [KimMinHa.apply_filters]
  by_cases hdf : df.isEmpty = true
  · rw [if_pos hdf]
    rw [List.isEmpty_iff.mp hdf]
    rfl
  · rw [if_neg hdf]
    rw [filter_if_sentinel q "" (KimMinHa.textMatch q) df]
    rw [filter_if_sentinel m "전체" (fun r => r.manufacturer == m)
      (df.filter fun r => (q == "") || KimMinHa.textMatch q r)]
    rw [filter_if_sentinel s "전체" (fun r : KimMinHa.KRow => r.severity == s)
      (List.filter (fun r => m == "전체" || r.manufacturer == m)
        (List.filter (fun r => q == "" || KimMinHa.textMatch q r) df))]
    rw [List.filter_filter, List.filter_filter]
    apply List.filter_congr
    intro r _
    simp only [KimMinHa.critB]
    cases (q == "") || KimMinHa.textMatch q r <;>
      cases (m == "전체") || (r.manufacturer == m) <;>
      cases (s == "전체") || (r.severity == s) <;> rfl

theorem parse_units_eq_digits (s : String) :
    App2.parse_units_to_int (some s) = natFromDigits (s.data.filter Char.isDigit) := by
  simp only [App2.parse_units_to_int]
  have hstrip : (stripStr s).data.filter Char.isDigit = s.data.filter Char.isDigit := by
    show (stripChars s.data).filter Char.isDigit = s.data.filter Char.isDigit
    exact stripChars_filter_eq Char.isDigit isSpaceB_not_digit s.data
  by_cases h0 : stripStr s = ""
  · rw [if_pos h0]
    have hnil : s.data.filter Char.isDigit = [] := by
      rw [← hstrip, h0]; rfl
    rw [hnil]; rfl
  · rw [if_neg h0]
    by_cases h1 : (stripStr s).data.filter Char.isDigit = []
    · rw [if_pos h1]
      rw [← hstrip, h1]; rfl
    · rw [if_neg h1, hstrip]

theorem if_isEmpty_sum {α : Type} (l : List α) (f : α → Nat) :
    (if l.isEmpty then 0 else (l.map f).sum) = (l.map f).sum := by
  cases l <;> simp

/-! ### Claims -/

/-- Claim C1: the manufacture-year filter keeps a record for target year `Y`
exactly when `start_date <= Dec 31 Y` and `end_date >= Jan 1 Y` (interval
overlap); in particular the record manufactured 2018-06-01 .. 2020-03-01 is
kept for 2018, 2019 and 2020 and dropped for 2017 and 2021. -/
theorem c1_year_overlap_filter :
    (∀ (df : List App2.Row2) (y : Nat) (r : App2.Row2),
       r ∈ App2.filter_by_manufacture_year df y ↔
         r ∈ df ∧ r.start_date.code ≤ (SimpleDate.mk y 12 31).code ∧
           (SimpleDate.mk y 1 1).code ≤ r.end_date.code) ∧
    App2.filter_by_manufacture_year [ex2Rec] 2018 = [ex2Rec] ∧
    App2.filter_by_manufacture_year [ex2Rec] 2019 = [ex2Rec] ∧
    App2.filter_by_manufacture_year [ex2Rec] 2020 = [ex2Rec] ∧
    App2.filter_by_manufacture_year [ex2Rec] 2017 = [] ∧
    App2.filter_by_manufacture_year [ex2Rec] 2021 = [] := by
  refine ⟨fun df y r => ?_, by decide, by decide, by decide, by decide, by decide⟩
  simp [App2.filter_by_manufacture_year, List.mem_filter, dleb, and_assoc]

/-- Claim C2 (amended): every year-trend variant returns exactly one
`(year, count)` pair per supplied year, in order, zero counts included; the
CSV variant `year_trend` and the MySQL variant `fetch_year_trend` count by
the manufacture-period year-overlap rule, while the SQLite variant
`stats_year_trend` counts rows whose `recall_date` falls in the year. -/
theorem c2_year_trend_amended :
    (∀ (df : List App2.Row2) (years : List Nat),
       App2.year_trend df years
         = years.map (fun y => (y, (App2.filter_by_manufacture_year df y).length))) ∧
    (∀ (rows : List RecallRepo.MRow) (scope maker : String) (lo hi : Nat),
       RecallRepo.fetch_year_trend rows scope maker lo hi
         = (yearRange lo hi).map (fun y =>
             (y, (rows.filter (RecallRepo.buildWhere scope maker (some y) "")).length))) ∧
    (∀ (df : List AppConnect.CRow) (years : List Nat),
       (AppConnect.stats_year_trend df years).map Prod.fst = years ∧
       AppConnect.stats_year_trend df years
         = years.map (fun y =>
             (y, (df.filter (fun r => AppConnect.recall_year r == some y)).length))) ∧
    App2.year_trend [] [2018] = [(2018, 0)] := by
  refine ⟨fun df years => rfl, fun rows scope maker lo hi => rfl, fun df years => ?_, rfl⟩
  have hchar : AppConnect.stats_year_trend df years
      = years.map (fun y =>
          (y, (df.filter (fun r => AppConnect.recall_year r == some y)).length)) := by
    apply List.map_congr_left
    intro y _
    cases df <;> rfl
  refine ⟨?_, hchar⟩
  rw [hchar, List.map_map,
    show (Prod.fst ∘ fun y =>
        (y, (df.filter (fun r => AppConnect.recall_year r == some y)).length)) = id from rfl,
    List.map_id]

/-- Claim C2 counterexample: on the SQLite variant the claim's counting rule
fails — a record whose manufacture period overlaps 2018 but whose recall
date lies in 2019 is not counted for 2018 by `stats_year_trend`, which
returns count 0 where the manufacture-overlap rule counts 1. -/
theorem c2_counterexample :
    AppConnect.stats_year_trend [exCRow] [2018]
        ≠ [(2018, AppConnect.overlapCount [exCRow] 2018)] ∧
    AppConnect.stats_year_trend [exCRow] [2018] = [(2018, 0)] ∧
    AppConnect.overlapCount [exCRow] 2018 = 1 := by
  refine ⟨by decide, by decide, by decide⟩

/-- Claim C3 counterexample: `preprocess_csv` keeps a row whose production
period is written right-to-left, producing a normalized row with
`manufacture_start_date > manufacture_end_date` — the normalizer never
checks the ordering. -/
theorem c3_counterexample :
    App2.preprocess_csv badT3 = Except.ok [badOut3] ∧
    badOut3.end_date.code < badOut3.start_date.code :=
  ⟨rfl, by decide⟩

/-- Claim C3 (amended): every row of the normalized table has both dates
present, and `manufacture_start_date <= manufacture_end_date` holds whenever
every input period that parses is written left-to-right; the ordering is not
enforced by normalization itself. -/
theorem c3_amended_ordered (t : App2.RawTable) (out : List App2.Row2)
    (hok : App2.preprocess_csv t = Except.ok out)
    (hord : ∀ r ∈ t.rows, ∀ a b,
      App2.parse_period_to_dates (App2.getCell r "생산기간") = (some a, some b) →
      a.code ≤ b.code) :
    ∀ q ∈ out, q.start_date.code ≤ q.end_date.code := by
  intro q hq
  unfold App2.preprocess_csv at hok
  by_cases hm : App2.missingOf t = []
  · rw [if_pos hm] at hok
    injection hok with h2
    rw [← h2, preprocess_rows_char] at hq
    rw [List.mem_filterMap] at hq
    obtain ⟨r, hr, hmk⟩ := hq
    rcases parse_period_both_or_none (App2.getCell r "생산기간") with h | ⟨a, b, h⟩
    · rw [h] at hmk
      exact absurd ((rfl : (none : Option App2.Row2) = none) ▸ hmk) (by simp)
    · rw [h] at hmk
      have hmk2 : some (App2.mkRow2 r a b) = some q := hmk
      injection hmk2 with hq2
      rw [← hq2]
      exact hord r hr a b h
  · rw [if_neg hm] at hok
    simp at hok

theorem c3_amended_ordered_witness :
    App2.preprocess_csv goodT3 = Except.ok [goodOut3] ∧
    goodOut3.start_date.code ≤ goodOut3.end_date.code := by
  refine ⟨rfl, ?_⟩
  apply c3_amended_ordered goodT3 [goodOut3] rfl ?_ goodOut3 (by simp)
  intro r hr a b hab
  have hr2 : r = goodRawRow3 := by simpa [goodT3] using hr
  subst hr2
  have hparse : App2.parse_period_to_dates (App2.getCell goodRawRow3 "생산기간")
      = (some ⟨2019, 1, 1⟩, some ⟨2021, 1, 1⟩) := rfl
  rw [hparse] at hab
  injection hab with h1 h2
  injection h1 with h1b
  injection h2 with h2b
  rw [← h1b, ← h2b]
  decide

theorem take_length_le {α : Type} (l : List α) (n : Nat) : (l.take n).length ≤ n := by
  simp [List.length_take]

theorem sorted_insertionSort_take {α : Type} (r : α → α → Prop) [DecidableRel r]
    [IsTotal α r] [IsTrans α r] (l : List α) (n : Nat) :
    List.Sorted r ((List.insertionSort r l).take n) :=
  List.Pairwise.sublist (List.take_sublist _ _) (List.sorted_insertionSort r l)

/-- Claim C4 (amended): each recall-list query returns at most 500 rows, the
cap being applied after a descending sort; the sort key is the recall date
(then recall id) in the SQLite variant `query_recalls`, but the manufacture
`end_date` in the CSV list tab and in the MySQL `fetch_recalls`. -/
theorem c4_cap_after_sort :
    (∀ df : List App2.Row2,
       (App2.tab_list_cap df).length ≤ 500 ∧
       App2.tab_list_cap df = (List.insertionSort App2.end2Desc df).take 500 ∧
       List.Sorted App2.end2Desc (App2.tab_list_cap df)) ∧
    (∀ (rows : List RecallRepo.MRow) (scope maker : String) (year : Option Nat) (s : String),
       (RecallRepo.fetch_recalls rows scope maker year s 500).length ≤ 500 ∧
       RecallRepo.fetch_recalls rows scope maker year s 500
         = (List.insertionSort RecallRepo.mDesc
             (rows.filter (RecallRepo.buildWhere scope maker year s))).take 500 ∧
       List.Sorted RecallRepo.mDesc (RecallRepo.fetch_recalls rows scope maker year s 500)) ∧
    (∀ (rows : List AppConnect.CRow) (region maker : String) (year : Option Nat) (kw : String),
       (AppConnect.query_recalls rows region maker year kw 500).length ≤ 500 ∧
       AppConnect.query_recalls rows region maker year kw 500
         = (List.insertionSort AppConnect.cDesc
             (rows.filter (AppConnect.whereC region maker year kw))).take 500 ∧
       List.Sorted AppConnect.cDesc (AppConnect.query_recalls rows region maker year kw 500)) := by
  refine ⟨fun df => ⟨take_length_le _ _, rfl, sorted_insertionSort_take _ _ _⟩,
    fun rows scope maker year s => ⟨take_length_le _ _, rfl, sorted_insertionSort_take _ _ _⟩,
    fun rows region maker year kw => ⟨take_length_le _ _, rfl, sorted_insertionSort_take _ _ _⟩⟩

/-- Claim C4 counterexample: `fetch_recalls` does not return the first rows
of the recall-date-descending order — on two rows whose manufacture end
dates and recall dates are ordered oppositely, it returns the manufacture
end-date order. -/
theorem c4_counterexample :
    RecallRepo.fetch_recalls [exMRowA, exMRowB] "전체" "전체" none "" 500
        ≠ (List.insertionSort RecallRepo.mRecallDesc
            ([exMRowA, exMRowB].filter
              (RecallRepo.buildWhere "전체" "전체" none ""))).take 500 ∧
    RecallRepo.fetch_recalls [exMRowA, exMRowB] "전체" "전체" none "" 500
        = [exMRowA, exMRowB] ∧
    (List.insertionSort RecallRepo.mRecallDesc
        ([exMRowA, exMRowB].filter (RecallRepo.buildWhere "전체" "전체" none ""))).take 500
      = [exMRowB, exMRowA] :=
  ⟨by decide, by decide, by decide⟩

theorem comb_text_component (q1 q2 : String) (r : KimMinHa.KRow)
    (h : q1 = "" ∨ q2 = "") :
    (((q2 == "") || KimMinHa.textMatch q2 r) && ((q1 == "") || KimMinHa.textMatch q1 r))
      = ((KimMinHa.combS "" q1 q2 == "") || KimMinHa.textMatch (KimMinHa.combS "" q1 q2) r) := by
  rcases h with h | h
  · subst h
    simp [KimMinHa.combS]
  · subst h
    by_cases h1 : q1 = ""
    · subst h1
      simp [KimMinHa.combS]
    · have hc : KimMinHa.combS "" q1 "" = q1 := if_neg h1
      rw [hc]
      simp

theorem comb_eq_component (d a1 a2 v : String) (h : a1 = d ∨ a2 = d) :
    (((a2 == d) || (v == a2)) && ((a1 == d) || (v == a1)))
      = ((KimMinHa.combS d a1 a2 == d) || (v == KimMinHa.combS d a1 a2)) := by
  rcases h with h | h
  · subst h
    simp [KimMinHa.combS]
  · subst h
    by_cases h1 : a1 = a2
    · subst h1
      simp [KimMinHa.combS]
    · have hc : KimMinHa.combS a2 a1 a2 = a1 := if_neg h1
      rw [hc]
      simp

/-- Claim C5: applying the record filter with one criterion and then with an
independent second criterion equals applying it once with their conjunction
(free-text, manufacturer and severity slots, each disabled by its sentinel
in one of the two passes). -/
theorem c5_filter_compose (df : List KimMinHa.KRow) (q1 m1 s1 q2 m2 s2 : String)
    (hq : q1 = "" ∨ q2 = "") (hm : m1 = "전체" ∨ m2 = "전체")
    (hs : s1 = "전체" ∨ s2 = "전체") :
    KimMinHa.apply_filters (KimMinHa.apply_filters df q1 m1 s1) q2 m2 s2
      = KimMinHa.apply_filters df (KimMinHa.combS "" q1 q2)
          (KimMinHa.combS "전체" m1 m2) (KimMinHa.combS "전체" s1 s2) := by
  rw [apply_filters_eq_filter, apply_filters_eq_filter, apply_filters_eq_filter,
    List.filter_filter]
  apply List.filter_congr
  intro r _
  have hA := comb_text_component q1 q2 r hq
  have hB := comb_eq_component "전체" m1 m2 r.manufacturer hm
  have hC := comb_eq_component "전체" s1 s2 r.severity hs
  simp only [KimMinHa.critB]
  rw [← hA, ← hB, ← hC]
  cases ((q2 == "") || KimMinHa.textMatch q2 r) <;>
    cases ((q1 == "") || KimMinHa.textMatch q1 r) <;>
    cases ((m2 == "전체") || (r.manufacturer == m2)) <;>
    cases ((m1 == "전체") || (r.manufacturer == m1)) <;>
    cases ((s2 == "전체") || (r.severity == s2)) <;>
    cases ((s1 == "전체") || (r.severity == s1)) <;> rfl

theorem c5_filter_compose_witness :
    ("i3" = "" ∨ "" = "") ∧ ("전체" = "전체" ∨ "BMW" = "전체") ∧
    ("전체" = "전체" ∨ "전체" = "전체") ∧
    KimMinHa.apply_filters (KimMinHa.apply_filters exKdf "i3" "전체" "전체") "" "BMW" "전체"
      = KimMinHa.apply_filters exKdf (KimMinHa.combS "" "i3" "")
          (KimMinHa.combS "전체" "전체" "BMW") (KimMinHa.combS "전체" "전체" "전체") ∧
    KimMinHa.apply_filters (KimMinHa.apply_filters exKdf "i3" "전체" "전체") "" "BMW" "전체"
      = [exK1] :=
  ⟨Or.inr rfl, Or.inl rfl, Or.inl rfl,
   c5_filter_compose exKdf "i3" "전체" "전체" "" "BMW" "전체"
     (Or.inr rfl) (Or.inl rfl) (Or.inl rfl),
   by decide⟩

/-- Claim C6: the total-count aggregate is the row count of the (year-)
restricted set and the total-units aggregate is the sum of the affected
units over it, in both the CSV variant (`kpi_total_recall_count` /
`kpi_total_units` over `target_units`) and the SQLite variant (`stats_kpi`
over `recall_quantity`), with both aggregates 0 on the empty set. -/
theorem c6_kpi_aggregates :
    (∀ (df : List App2.Row2) (y : Nat),
       App2.kpi_total_recall_count df y = (App2.filter_by_manufacture_year df y).length) ∧
    (∀ (df : List App2.Row2) (y : Nat),
       App2.kpi_total_units df y
         = ((App2.filter_by_manufacture_year df y).map App2.Row2.target_units).sum) ∧
    (∀ y : Nat, App2.kpi_total_recall_count [] y = 0 ∧ App2.kpi_total_units [] y = 0) ∧
    (∀ (df : List AppConnect.CRow) (y : Nat),
       (AppConnect.stats_kpi df y).1
           = (df.filter (fun r => AppConnect.recall_year r == some y)).length ∧
       (AppConnect.stats_kpi df y).2
           = ((df.filter (fun r => AppConnect.recall_year r == some y)).map
               AppConnect.CRow.recall_quantity).sum) ∧
    (∀ y : Nat, AppConnect.stats_kpi [] y = (0, 0)) := by
  refine ⟨fun df y => rfl, fun df y => rfl, fun y => ⟨rfl, rfl⟩,
    fun df y => ⟨rfl, ?_⟩, fun y => rfl⟩
  exact if_isEmpty_sum _ _

/-- Claim C7: numeric parsing returns the value of the digit characters of
the input, 0 when no digit is present, and is total; "1,234대" gives 1234,
and `None`, "" and "abc" give 0. -/
theorem c7_parse_units :
    (∀ s : String, App2.parse_units_to_int (some s)
        = natFromDigits (s.data.filter Char.isDigit)) ∧
    App2.parse_units_to_int none = 0 ∧
    App2.parse_units_to_int (some "1,234대") = 1234 ∧
    App2.parse_units_to_int (some "") = 0 ∧
    App2.parse_units_to_int (some "abc") = 0 :=
  ⟨parse_units_eq_digits, rfl, by decide, rfl, by decide⟩

/-- Claim C8: the period string is split on the `~` separator with each side
parsed as a YYYY-MM-DD date ("2020-01-01 ~ 2021-06-30" gives that pair); a
missing separator or an unparseable side yields `(None, None)`, and
`preprocess_csv` silently keeps exactly the rows whose period parses on both
sides, never erroring on a malformed row. -/
theorem c8_period_parse_and_silent_drop :
    App2.parse_period_to_dates (some "2020-01-01 ~ 2021-06-30")
        = (some ⟨2020, 1, 1⟩, some ⟨2021, 6, 30⟩) ∧
    App2.parse_period_to_dates (some "2020-01-01 2021-06-30") = (none, none) ∧
    App2.parse_period_to_dates (some "2020-13-01 ~ 2021-06-30") = (none, none) ∧
    (∀ (t : App2.RawTable) (out : List App2.Row2),
       App2.preprocess_csv t = Except.ok out →
       out = t.rows.filterMap (fun r =>
         match App2.parse_period_to_dates (App2.getCell r "생산기간") with
         | (some a, some b) => some (App2.mkRow2 r a b)
         | _ => none)) := by
  refine ⟨by decide, by decide, by decide, ?_⟩
  intro t out hok
  unfold App2.preprocess_csv at hok
  by_cases hm : App2.missingOf t = []
  · rw [if_pos hm] at hok
    injection hok with h2
    rw [← h2]
    exact preprocess_rows_char t.rows
  · rw [if_neg hm] at hok
    simp at hok

theorem c8_period_parse_witness :
    App2.preprocess_csv mixT8 = Except.ok out8 ∧
    out8 = mixT8.rows.filterMap (fun r =>
      match App2.parse_period_to_dates (App2.getCell r "생산기간") with
      | (some a, some b) => some (App2.mkRow2 r a b)
      | _ => none) :=
  ⟨rfl, c8_period_parse_and_silent_drop.2.2.2 mixT8 out8 rfl⟩

/-- Claim C9: `preprocess_csv` fails exactly when one of the eight required
source columns is absent, the reported error carries the full list of
missing required columns, and on that error no normalized table is
returned. -/
theorem c9_schema_error :
    (∀ t : App2.RawTable,
       (App2.missingOf t ≠ [] ↔ ∃ c ∈ App2.required_cols, t.cols.contains c = false)) ∧
    (∀ t : App2.RawTable, App2.missingOf t ≠ [] →
       App2.preprocess_csv t = Except.error (App2.missingOf t)) ∧
    (∀ t : App2.RawTable, App2.missingOf t = [] →
       ∃ out, App2.preprocess_csv t = Except.ok out) := by
  refine ⟨fun t => ?_, fun t h => ?_, fun t h => ?_⟩
  · constructor
    · intro h
      by_contra hc
      push_neg at hc
      apply h
      apply List.filter_eq_nil_iff.mpr
      intro c hcmem
      have hcc : t.cols.contains c = true := by
        cases hval : t.cols.contains c
        · exact absurd hval (hc c hcmem)
        · rfl
      show ¬(!(t.cols.contains c)) = true
      rw [hcc]
      decide
    · rintro ⟨c, hcmem, hcf⟩ h
      have hmem : c ∈ App2.missingOf t :=
        List.mem_filter.mpr ⟨hcmem, by
          show (!(t.cols.contains c)) = true
          rw [hcf]
          rfl⟩
      rw [h] at hmem
      exact absurd hmem (List.not_mem_nil c)
  · unfold App2.preprocess_csv
    rw [if_neg h]
  · unfold App2.preprocess_csv
    rw [if_pos h]
    exact ⟨_, rfl⟩

theorem c9_schema_error_witness :
    App2.missingOf badT9 ≠ [] ∧
    App2.preprocess_csv badT9 = Except.error (App2.missingOf badT9) ∧
    App2.missingOf goodT9 = [] ∧
    (∃ out, App2.preprocess_csv goodT9 = Except.ok out) :=
  ⟨by decide, c9_schema_error.2.1 badT9 (by decide), by decide,
   c9_schema_error.2.2 goodT9 (by decide)⟩

/-- Claim C10: `parse_period_to_dates` returns either both dates or the pair
`(None, None)` — never one side only — so dropping normalized rows with a
missing `start_date` or `end_date` excludes exactly the rows whose period
failed to parse on either side. -/
theorem c10_period_both_or_neither :
    (∀ p : Option String,
       App2.parse_period_to_dates p = (none, none) ∨
         ∃ a b, App2.parse_period_to_dates p = (some a, some b)) ∧
    (∀ r : App2.RawRow,
       (((App2.toIRow r).sdt.isSome && (App2.toIRow r).edt.isSome) = true ↔
         ∃ a b, App2.parse_period_to_dates (App2.getCell r "생산기간")
             = (some a, some b))) := by
  refine ⟨parse_period_both_or_none, fun r => ?_⟩
  rcases parse_period_both_or_none (App2.getCell r "생산기간") with h | ⟨a, b, h⟩
  · constructor
    · intro hb
      exfalso
      have hs : (App2.toIRow r).sdt = none := by simp [App2.toIRow, h]
      rw [hs] at hb
      simp at hb
    · rintro ⟨a, b, hab⟩
      rw [h] at hab
      exact absurd hab (by simp)
  · constructor
    · intro _
      exact ⟨a, b, h⟩
    · intro _
      have hs : (App2.toIRow r).sdt = some a := by simp [App2.toIRow, h]
      have he : (App2.toIRow r).edt = some b := by simp [App2.toIRow, h]
      rw [hs, he]
      rfl
